import Mathlib

/-!
Verification of the alarm-management core of the MIT emergency ventilator
controller (sources: Alarms.h and Display.cpp).  Shallow embedding: the C++
machine integers are modelled as Nat (every quantity involved is non-negative
and no overflow is relevant to the properties below), the Arduino millisecond
clock is an explicit Nat argument, and the few method bodies that live in
Alarms.cpp (absent from the sources at hand) are modelled from the
specification, as marked on each such definition.
-/

/-- Alarm levels in order of increasing priority (Alarms.h lines 50-56).
The C++ enum also contains the count sentinel NUM_LEVELS = 4, which is not a
level; it is modelled separately below. -/
inductive AlarmLevel where
  | NO_ALARM
  | NOTIFY
  | EMERGENCY
  | OFF_LEVEL
  deriving DecidableEq, Repr

/-- Numeric value of each enumerator, as assigned by the C++ enum. -/
def AlarmLevel.toNat : AlarmLevel → Nat
  | .NO_ALARM => 0
  | .NOTIFY => 1
  | .EMERGENCY => 2
  | .OFF_LEVEL => 3

/-- The count sentinel NUM_LEVELS of the AlarmLevel enum (Alarms.h line 55). -/
def NUM_LEVELS : Nat := 4

/-- Maximum of two alarm levels under the enum priority order
NO_ALARM < NOTIFY < EMERGENCY < OFF_LEVEL. -/
def AlarmLevel.maxLevel (a b : AlarmLevel) : AlarmLevel :=
  if a.toNat ≤ b.toNat then b else a

/-- Container for notes elements (Alarms.h lines 60-64); the C++ int fields are
modelled as Nat, all pitch, duration and pause values in use being non-negative. -/
structure Note where
  note : Nat
  duration : Nat
  pause : Nat
  deriving DecidableEq, Repr

/-- Modelled from the spec: the pitch constants come from pitches.h, which is not
among the sources at hand; the standard Arduino pitch-table values are used.  No
claim depends on the numeric value of a pitch, only on which note of a sequence
is emitted when. -/
def NOTE_B4 : Nat := 494

/-- Pitch constant, see NOTE_B4. -/
def NOTE_G4 : Nat := 392

/-- Pitch constant, see NOTE_B4. -/
def NOTE_G5 : Nat := 784

/-- Notification notes kNotifyNotes (Alarms.h lines 68-71). -/
def kNotifyNotes : List Note := [⟨NOTE_B4, 200, 100⟩, ⟨NOTE_B4, 200, 2000⟩]

/-- Emergency notes kEmergencyNotes (Alarms.h lines 74-80). -/
def kEmergencyNotes : List Note :=
  [⟨NOTE_G4, 300, 200⟩, ⟨NOTE_G4, 300, 200⟩, ⟨NOTE_G4, 300, 400⟩,
   ⟨NOTE_G4, 200, 100⟩, ⟨NOTE_G5, 200, 1500⟩]

/-- Off notes kOffNotes (Alarms.h lines 83-85). -/
def kOffNotes : List Note := [⟨NOTE_G4, 200, 200⟩]

/-- State of one Alarm (fields of class Alarm, Alarms.h lines 197-207).  The
member initializers of the C++ class give the latch, the two hysteresis
counters and the two last-sequence bookkeeping fields their defaults. -/
structure Alarm where
  text : String
  alarm_level : AlarmLevel
  min_bad_to_trigger : Nat
  min_good_to_clear : Nat
  on_ : Bool := false
  consecutive_bad : Nat := 0
  consecutive_good : Nat := 0
  last_bad_seq : Nat := 0
  last_good_seq : Nat := 0
  deriving DecidableEq, Repr

/-- Modelled from the spec: the four-argument Alarm constructor (its body is in
Alarms.cpp, which is not among the sources at hand).  It stores the default
text, the two hysteresis thresholds and the level; latch and counters keep the
member-initializer defaults (off, all zero). -/
def mkAlarm (text : String) (min_bad min_good : Nat) (lvl : AlarmLevel) : Alarm :=
  { text := text, alarm_level := lvl,
    min_bad_to_trigger := min_bad, min_good_to_clear := min_good }

/-- Modelled from the spec: Alarm::setCondition (its body is in Alarms.cpp, which
is not among the sources at hand; the behaviour follows spec section 4.1 and the
declaration comment at Alarms.h lines 180-183).  On a bad observation the bad
counter is incremented only when seq differs from the last bad sequence number,
the good counter is reset, and the alarm latches ON once consecutive_bad reaches
min_bad_to_trigger; symmetrically a good observation increments the good counter
only on a fresh sequence number, resets the bad counter, and latches the alarm
OFF once consecutive_good reaches min_good_to_clear. -/
def Alarm.setCondition (a : Alarm) (bad : Bool) (seq : Nat) : Alarm :=
  if bad then
    let cb := if seq = a.last_bad_seq then a.consecutive_bad else a.consecutive_bad + 1
    { a with consecutive_bad := cb, last_bad_seq := seq, consecutive_good := 0,
             on_ := a.on_ || decide (a.min_bad_to_trigger ≤ cb) }
  else
    let cg := if seq = a.last_good_seq then a.consecutive_good else a.consecutive_good + 1
    { a with consecutive_good := cg, last_good_seq := seq, consecutive_bad := 0,
             on_ := a.on_ && ! decide (a.min_good_to_clear ≤ cg) }

/-- Modelled from the spec: Alarm::setText (its body is in Alarms.cpp, which is
not among the sources at hand): stores the given text trimmed or padded to the
20-character footer width. -/
def Alarm.setText (a : Alarm) (text : String) : Alarm :=
  { a with text :=
      (text.toList.take 20 ++ List.replicate (20 - text.length) ' ').asString }

/-- Folding a list of (bad, seq) observations through Alarm::setCondition. -/
def Alarm.run (a : Alarm) : List (Bool × Nat) → Alarm
  | [] => a
  | ob :: rest => (a.setCondition ob.1 ob.2).run rest

/-- A run of purely bad observations at the given sequence numbers. -/
def badObs (seqs : List Nat) : List (Bool × Nat) := seqs.map (fun s => (true, s))

/-- A run of purely good observations at the given sequence numbers. -/
def goodObs (seqs : List Nat) : List (Bool × Nat) := seqs.map (fun s => (false, s))

/-- Number of bad observations in a run. -/
def badCount (obs : List (Bool × Nat)) : Nat := (obs.filter (fun ob => ob.1)).length

/-- Number of good observations in a run. -/
def goodCount (obs : List (Bool × Nat)) : Nat := (obs.filter (fun ob => !ob.1)).length

/-- Registry indices of the AlarmManager (enum Indices, Alarms.h lines 222-236),
as elements of Fin NUM_ALARMS with the enum's numeric values. -/
def HIGH_PRESSU : Fin 12 := 0

/-- Registry index, see HIGH_PRESSU. -/
def LOW_PRESSUR : Fin 12 := 1

/-- Registry index, see HIGH_PRESSU. -/
def BAD_PLATEAU : Fin 12 := 2

/-- Registry index, see HIGH_PRESSU. -/
def UNMET_VOLUM : Fin 12 := 3

/-- Registry index, see HIGH_PRESSU. -/
def NO_TIDAL_PR : Fin 12 := 4

/-- Registry index, see HIGH_PRESSU. -/
def OVER_CURREN : Fin 12 := 5

/-- Registry index, see HIGH_PRESSU. -/
def MECH_FAILUR : Fin 12 := 6

/-- Registry index, see HIGH_PRESSU. -/
def NOT_CONFIRM_TV : Fin 12 := 7

/-- Registry index, see HIGH_PRESSU. -/
def NOT_CONFIRM_RR : Fin 12 := 8

/-- Registry index, see HIGH_PRESSU. -/
def NOT_CONFIRM_IE : Fin 12 := 9

/-- Registry index, see HIGH_PRESSU. -/
def NOT_CONFIRM_AC : Fin 12 := 10

/-- Registry index, see HIGH_PRESSU. -/
def TURNING_OFF : Fin 12 := 11

/-- Count sentinel NUM_ALARMS of enum Indices (Alarms.h line 235). -/
def NUM_ALARMS : Nat := 12

/-- Store into one slot of the registry array (the effect of an assignment to
alarms_[idx]); all other slots keep their contents. -/
def updateSlot (al : Fin 12 → Alarm) (idx : Fin 12) (a : Alarm) : Fin 12 → Alarm :=
  fun j => if j = idx then a else al j

/-- State of the AlarmManager relevant to the alarm registry: the fixed array
of NUM_ALARMS Alarm slots (field alarms_, Alarms.h line 337) and the value of
the shared cycle counter the manager dereferences (field cycle_count_,
Alarms.h line 340; the C++ member is a pointer to the caller's counter, whose
current value is modelled directly). -/
structure AlarmManager where
  alarms : Fin 12 → Alarm
  cycle_count : Nat

/-- The registry exactly as filled in by the AlarmManager constructor
(Alarms.h lines 246-257). -/
def initAlarms : Fin 12 → Alarm :=
  ![mkAlarm "HIGH PRESSURE       " 1 2 AlarmLevel.EMERGENCY,
    mkAlarm "LOW PRES DISCONNECT?" 1 1 AlarmLevel.EMERGENCY,
    mkAlarm "HIGH RESIST PRES    " 1 1 AlarmLevel.NOTIFY,
    mkAlarm "UNMET TIDAL VOLUME  " 1 1 AlarmLevel.EMERGENCY,
    mkAlarm "NO TIDAL PRESSURE   " 2 1 AlarmLevel.EMERGENCY,
    mkAlarm "OVER CURRENT FAULT  " 1 2 AlarmLevel.EMERGENCY,
    mkAlarm "MECHANICAL FAILURE  " 1 1 AlarmLevel.EMERGENCY,
    mkAlarm "CONFIRM?            " 1 1 AlarmLevel.NOTIFY,
    mkAlarm "CONFIRM?            " 1 1 AlarmLevel.NOTIFY,
    mkAlarm "CONFIRM?            " 1 1 AlarmLevel.NOTIFY,
    mkAlarm "CONFIRM?            " 1 1 AlarmLevel.NOTIFY,
    mkAlarm "TURNING OFF         " 1 1 AlarmLevel.OFF_LEVEL]

/-- A freshly constructed AlarmManager whose shared cycle counter currently
reads the given value. -/
def mkAlarmManager (cycle_count : Nat) : AlarmManager :=
  { alarms := initAlarms, cycle_count := cycle_count }

/-- Fold computing the maximum level of the on alarms over a list of registry
indices. -/
def highestLevelAux (al : Fin 12 → Alarm) : List (Fin 12) → AlarmLevel → AlarmLevel
  | [], acc => acc
  | i :: rest, acc =>
      highestLevelAux al rest
        (if (al i).on_ then acc.maxLevel (al i).alarm_level else acc)

/-- Modelled from the spec: AlarmManager::getHighestLevel (its body is in
Alarms.cpp, which is not among the sources at hand; spec section 4.4 step 2):
the maximum AlarmLevel among all currently-on alarms, or NO_ALARM if none are
on. -/
def AlarmManager.getHighestLevel (m : AlarmManager) : AlarmLevel :=
  highestLevelAux m.alarms (List.finRange 12) AlarmLevel.NO_ALARM

/-- AlarmManager::highPressure (Alarms.h lines 270-272): feed the boolean
condition into the HIGH_PRESSU slot with the shared cycle counter as the
sequence number. -/
def AlarmManager.highPressure (m : AlarmManager) (value : Bool) : AlarmManager :=
  { m with alarms := (updateSlot m.alarms HIGH_PRESSU
      ((m.alarms HIGH_PRESSU).setCondition value m.cycle_count)) }

/-- AlarmManager::lowPressure (Alarms.h lines 275-277). -/
def AlarmManager.lowPressure (m : AlarmManager) (value : Bool) : AlarmManager :=
  { m with alarms := (updateSlot m.alarms LOW_PRESSUR
      ((m.alarms LOW_PRESSUR).setCondition value m.cycle_count)) }

/-- AlarmManager::badPlateau (Alarms.h lines 280-282). -/
def AlarmManager.badPlateau (m : AlarmManager) (value : Bool) : AlarmManager :=
  { m with alarms := (updateSlot m.alarms BAD_PLATEAU
      ((m.alarms BAD_PLATEAU).setCondition value m.cycle_count)) }

/-- AlarmManager::unmetVolume (Alarms.h lines 285-287). -/
def AlarmManager.unmetVolume (m : AlarmManager) (value : Bool) : AlarmManager :=
  { m with alarms := (updateSlot m.alarms UNMET_VOLUM
      ((m.alarms UNMET_VOLUM).setCondition value m.cycle_count)) }

/-- AlarmManager::noTidalPres (Alarms.h lines 290-292). -/
def AlarmManager.noTidalPres (m : AlarmManager) (value : Bool) : AlarmManager :=
  { m with alarms := (updateSlot m.alarms NO_TIDAL_PR
      ((m.alarms NO_TIDAL_PR).setCondition value m.cycle_count)) }

/-- AlarmManager::overCurrent (Alarms.h lines 295-297). -/
def AlarmManager.overCurrent (m : AlarmManager) (value : Bool) : AlarmManager :=
  { m with alarms := (updateSlot m.alarms OVER_CURREN
      ((m.alarms OVER_CURREN).setCondition value m.cycle_count)) }

/-- AlarmManager::mechanicalFailure (Alarms.h lines 300-302). -/
def AlarmManager.mechanicalFailure (m : AlarmManager) (value : Bool) : AlarmManager :=
  { m with alarms := (updateSlot m.alarms MECH_FAILUR
      ((m.alarms MECH_FAILUR).setCondition value m.cycle_count)) }

/-- AlarmManager::turningOFF (Alarms.h lines 317-319). -/
def AlarmManager.turningOFF (m : AlarmManager) (value : Bool) : AlarmManager :=
  { m with alarms := (updateSlot m.alarms TURNING_OFF
      ((m.alarms TURNING_OFF).setCondition value m.cycle_count)) }

/-- Modelled from the spec: display::DisplayKey (Display.h is not among the
sources at hand).  The four recognized confirmable-setting keys, plus HEADER,
the key with value 0 used as the default argument of unconfirmedChange, which
is not one of the four.  The C++ enumerator named IE_RATIO is rendered
IE_RATIO_KEY here. -/
inductive DisplayKey where
  | HEADER
  | VOLUME
  | BPM
  | IE_RATIO_KEY
  | AC_TRIGGER
  deriving DecidableEq, Repr

/-- The if-chain of AlarmManager::unconfirmedChange (Alarms.h lines 306-310):
the local variable NOT_CONFIRM is declared without an initializer and assigned
only when the key matches one of the four recognized keys; none models the
indeterminate value it holds for any other key. -/
def resolveNotConfirm (key : DisplayKey) : Option (Fin 12) :=
  let nc : Option (Fin 12) := none
  let nc := if key = DisplayKey.VOLUME then some NOT_CONFIRM_TV else nc
  let nc := if key = DisplayKey.BPM then some NOT_CONFIRM_RR else nc
  let nc := if key = DisplayKey.IE_RATIO_KEY then some NOT_CONFIRM_IE else nc
  let nc := if key = DisplayKey.AC_TRIGGER then some NOT_CONFIRM_AC else nc
  nc

/-- AlarmManager::unconfirmedChange (Alarms.h lines 305-315): when the key is
recognized, the slot's text is overwritten (only when value is set) and the
condition is fed into the slot with the shared cycle counter; none models the
executions that index alarms_ with the uninitialized NOT_CONFIRM variable
(undefined behaviour in the C++ source). -/
def AlarmManager.unconfirmedChange (m : AlarmManager) (value : Bool) (message : String)
    (key : DisplayKey) : Option AlarmManager :=
  match resolveNotConfirm key with
  | none => none
  | some idx =>
    let m1 := if value then
        { m with alarms := (updateSlot m.alarms idx ((m.alarms idx).setText message)) }
      else m
    some { m1 with alarms := (updateSlot m1.alarms idx
            ((m1.alarms idx).setCondition value m1.cycle_count)) }

/-- Runtime state of a Tone (fields of class Tone, Alarms.h lines 104-110): the
borrowed note sequence and its length are modelled as a Lean list; the output
pin is hardware-facing and carries no logic. -/
structure Tone where
  notes : List Note
  playing : Bool := false
  tone_step : Nat := 0
  tone_timer : Nat := 0
  deriving DecidableEq, Repr

/-- The default-constructed Tone (Alarms.h line 94): a zero-length sequence. -/
def defaultTone : Tone := { notes := [] }

/-- Tone::stop (Alarms.h line 102). -/
def Tone.stop (t : Tone) : Tone := { t with playing := false }

/-- Modelled from the spec: Tone::play (its body is in Alarms.cpp, which is not
among the sources at hand; spec section 4.2).  A zero-length sequence never
plays; when stopped, playback starts at step 0, records the clock and emits
that step's pitch; while playing, once the elapsed time exceeds the current
step's duration + pause the player advances to the next step (wrapping past the
last step), records the clock and emits the new step's pitch; otherwise nothing
happens.  Returns the new state and the pitch emitted by this call, if any. -/
def Tone.play (t : Tone) (now : Nat) : Tone × Option Nat :=
  if 0 < t.notes.length then
    if t.playing then
      let cur := t.notes.getD (t.tone_step % t.notes.length) ⟨0, 0, 0⟩
      if cur.duration + cur.pause < now - t.tone_timer then
        let nxt := (t.tone_step + 1) % t.notes.length
        ({ t with tone_step := nxt, tone_timer := now },
          some (t.notes.getD nxt ⟨0, 0, 0⟩).note)
      else
        (t, none)
    else
      ({ t with playing := true, tone_step := 0, tone_timer := now },
        some (t.notes.getD 0 ⟨0, 0, 0⟩).note)
  else
    (t, none)

/-- Repeated calls to Tone::play at the given clock readings, collecting the
emitted pitches in order. -/
def Tone.playTrace (t : Tone) : List Nat → Tone × List Nat
  | [] => (t, [])
  | now :: rest =>
    let step := t.play now
    let r := step.1.playTrace rest
    (r.1, step.2.toList ++ r.2)

/-- The EMERGENCY tone as constructed by the Beeper constructor
(Alarms.h line 131): the kEmergencyNotes sequence, initially stopped. -/
def emergencyTone : Tone := { notes := kEmergencyNotes }

/-- An arbitrary runtime state of the Tone that owns the kEmergencyNotes
sequence. -/
def emergencyAt (playing : Bool) (step timer : Nat) : Tone :=
  { notes := kEmergencyNotes, playing := playing, tone_step := step,
    tone_timer := timer }

/-- Time during which alarms are silenced, in milliseconds
(kSnoozeTime, Alarms.h line 121). -/
def kSnoozeTime : Nat := 2 * 60 * 1000

/-- Snooze-relevant state of the Beeper (fields snoozed_ and snooze_time_,
Alarms.h lines 151-153); per the spec data model the timestamp stores the
suppression deadline. -/
structure Beeper where
  snoozed : Bool := false
  snooze_time : Nat := 0
  deriving DecidableEq, Repr

/-- Modelled from the spec: Beeper::update (its body is in Alarms.cpp, which is
not among the sources at hand; spec section 4.3).  In order: an elapsed snooze
auto-clears before the button is even checked; a qualifying button press
toggles snooze, recording now + kSnoozeTime as the suppression deadline when
turning it on; finally sound is produced exactly when the level is not
NO_ALARM and snooze is not active.  Returns the new state and whether the tone
for the level is played on this cycle. -/
def Beeper.update (b : Beeper) (pressed : Bool) (now : Nat) (level : AlarmLevel) :
    Beeper × Bool :=
  let b1 := if b.snoozed && decide (b.snooze_time ≤ now) then
      { b with snoozed := false }
    else b
  let b2 := if pressed then
      (if b1.snoozed then { b1 with snoozed := false }
       else { b1 with snoozed := true, snooze_time := now + kSnoozeTime })
    else b1
  (b2, !b2.snoozed && decide (level ≠ AlarmLevel.NO_ALARM))

/-- Modelled from the spec: step 4 of AlarmManager::update (its body is in
Alarms.cpp, which is not among the sources at hand; spec section 4.4) — drive
the Beeper with the highest active level.  The registry is only read; it is
returned alongside to express that driving the Beeper (snooze included) never
alters any Alarm. -/
def driveBeeper (m : AlarmManager) (b : Beeper) (pressed : Bool) (now : Nat) :
    AlarmManager × Beeper × Bool :=
  (m, b.update pressed now m.getHighestLevel)

/-- The LCD character grid addressed by (row, column): Display.cpp drives a
LiquidCrystal, modelled as a total map from cell addresses to the character
shown there. -/
def Screen : Type := Nat × Nat → Char

/-- One lcd_->write of a character at cursor position (col, row). -/
def setCell (s : Screen) (row col : Nat) (c : Char) : Screen :=
  fun p => if p = (row, col) then c else s p

/-- The clear loop of Display::write (Display.cpp lines 55-58): for
i = 0 .. width-1, set the cursor to (col + i, row) and write a blank. -/
def clearField (s : Screen) (row col width : Nat) : Screen :=
  (List.range width).foldl (fun acc i => setCell acc row (col + i) ' ') s

/-- lcd_->print of the printable's rendered text starting at (col, row)
(Display.cpp lines 59-60): characters go left to right, the cursor advancing
one column per character. -/
def printAt (s : Screen) (row col : Nat) : List Char → Screen
  | [] => s
  | c :: rest => printAt (setCell s row col c) row (col + 1) rest

/-- Display::write (Display.cpp lines 53-61): first blank all width cells of
the field, then print the printable's rendered text from the field's first
cell. -/
def Display.write (s : Screen) (row col : Nat) (printable : List Char) (width : Nat) :
    Screen :=
  printAt (clearField s row col width) row col printable

theorem setCondition_min_bad (a : Alarm) (b : Bool) (s : Nat) :
    (a.setCondition b s).min_bad_to_trigger = a.min_bad_to_trigger := by
  cases b <;> rfl

theorem setCondition_min_good (a : Alarm) (b : Bool) (s : Nat) :
    (a.setCondition b s).min_good_to_clear = a.min_good_to_clear := by
  cases b <;> rfl

theorem setCondition_true_cb (a : Alarm) (s : Nat) :
    (a.setCondition true s).consecutive_bad =
      if s = a.last_bad_seq then a.consecutive_bad else a.consecutive_bad + 1 := rfl

theorem setCondition_true_cg (a : Alarm) (s : Nat) :
    (a.setCondition true s).consecutive_good = 0 := rfl

theorem setCondition_true_lbs (a : Alarm) (s : Nat) :
    (a.setCondition true s).last_bad_seq = s := rfl

theorem setCondition_true_on (a : Alarm) (s : Nat) :
    (a.setCondition true s).on_ =
      (a.on_ || decide (a.min_bad_to_trigger ≤ (a.setCondition true s).consecutive_bad)) := rfl

theorem setCondition_false_cg (a : Alarm) (s : Nat) :
    (a.setCondition false s).consecutive_good =
      if s = a.last_good_seq then a.consecutive_good else a.consecutive_good + 1 := rfl

theorem setCondition_false_cb (a : Alarm) (s : Nat) :
    (a.setCondition false s).consecutive_bad = 0 := rfl

theorem setCondition_false_lgs (a : Alarm) (s : Nat) :
    (a.setCondition false s).last_good_seq = s := rfl

theorem setCondition_false_on (a : Alarm) (s : Nat) :
    (a.setCondition false s).on_ =
      (a.on_ && ! decide (a.min_good_to_clear ≤ (a.setCondition false s).consecutive_good)) := rfl

theorem run_min_bad (obs : List (Bool × Nat)) : ∀ a : Alarm,
    (a.run obs).min_bad_to_trigger = a.min_bad_to_trigger := by
  induction obs with
  | nil => intro a; rfl
  | cons ob rest ih =>
    intro a
    show ((a.setCondition ob.1 ob.2).run rest).min_bad_to_trigger = _
    rw [ih, setCondition_min_bad]

theorem run_min_good (obs : List (Bool × Nat)) : ∀ a : Alarm,
    (a.run obs).min_good_to_clear = a.min_good_to_clear := by
  induction obs with
  | nil => intro a; rfl
  | cons ob rest ih =>
    intro a
    show ((a.setCondition ob.1 ob.2).run rest).min_good_to_clear = _
    rw [ih, setCondition_min_good]

theorem run_append (l1 l2 : List (Bool × Nat)) : ∀ a : Alarm,
    a.run (l1 ++ l2) = (a.run l1).run l2 := by
  induction l1 with
  | nil => intro a; rfl
  | cons ob rest ih => intro a; exact ih (a.setCondition ob.1 ob.2)

theorem badCount_cons_true (s : Nat) (rest : List (Bool × Nat)) :
    badCount ((true, s) :: rest) = badCount rest + 1 := by
  simp [badCount, List.filter_cons]

theorem badCount_cons_false (s : Nat) (rest : List (Bool × Nat)) :
    badCount ((false, s) :: rest) = badCount rest := by
  simp [badCount, List.filter_cons]

theorem goodCount_cons_true (s : Nat) (rest : List (Bool × Nat)) :
    goodCount ((true, s) :: rest) = goodCount rest := by
  simp [goodCount, List.filter_cons]

theorem goodCount_cons_false (s : Nat) (rest : List (Bool × Nat)) :
    goodCount ((false, s) :: rest) = goodCount rest + 1 := by
  simp [goodCount, List.filter_cons]

theorem badCount_badObs (seqs : List Nat) : badCount (badObs seqs) = seqs.length := by
  induction seqs with
  | nil => rfl
  | cons s rest ih =>
    show badCount ((true, s) :: badObs rest) = rest.length + 1
    rw [badCount_cons_true, ih]

/-- An alarm that is off, and whose bad counter cannot reach the trigger
threshold within the run, stays off. -/
theorem run_off_of_bad_lt (obs : List (Bool × Nat)) : ∀ a : Alarm,
    a.on_ = false → a.consecutive_bad + badCount obs < a.min_bad_to_trigger →
    (a.run obs).on_ = false := by
  induction obs with
  | nil => intro a h1 _; exact h1
  | cons ob rest ih =>
    intro a h1 h2
    obtain ⟨b, s⟩ := ob
    show ((a.setCondition b s).run rest).on_ = false
    cases b with
    | true =>
      rw [badCount_cons_true] at h2
      have hcb : (a.setCondition true s).consecutive_bad ≤ a.consecutive_bad + 1 := by
        rw [setCondition_true_cb]; split <;> omega
      have hon : (a.setCondition true s).on_ = false := by
        rw [setCondition_true_on, h1, Bool.false_or, decide_eq_false_iff_not]
        omega
      apply ih _ hon
      rw [setCondition_min_bad]
      omega
    | false =>
      rw [badCount_cons_false] at h2
      have hon : (a.setCondition false s).on_ = false := by
        rw [setCondition_false_on, h1, Bool.false_and]
      apply ih _ hon
      rw [setCondition_min_bad, setCondition_false_cb]
      omega

/-- An alarm that is on, and whose good counter cannot reach the clear
threshold within the run, stays on. -/
theorem run_on_of_good_lt (obs : List (Bool × Nat)) : ∀ a : Alarm,
    a.on_ = true → a.consecutive_good + goodCount obs < a.min_good_to_clear →
    (a.run obs).on_ = true := by
  induction obs with
  | nil => intro a h1 _; exact h1
  | cons ob rest ih =>
    intro a h1 h2
    obtain ⟨b, s⟩ := ob
    show ((a.setCondition b s).run rest).on_ = true
    cases b with
    | false =>
      rw [goodCount_cons_false] at h2
      have hcg : (a.setCondition false s).consecutive_good ≤ a.consecutive_good + 1 := by
        rw [setCondition_false_cg]; split <;> omega
      have hon : (a.setCondition false s).on_ = true := by
        rw [setCondition_false_on, h1, Bool.true_and, Bool.not_eq_true',
            decide_eq_false_iff_not]
        omega
      apply ih _ hon
      rw [setCondition_min_good]
      omega
    | true =>
      rw [goodCount_cons_true] at h2
      have hon : (a.setCondition true s).on_ = true := by
        rw [setCondition_true_on, h1, Bool.true_or]
      apply ih _ hon
      rw [setCondition_min_good, setCondition_true_cg]
      omega

/-- A run of bad observations never turns an alarm off. -/
theorem run_bad_preserves_on (seqs : List Nat) : ∀ a : Alarm,
    a.on_ = true → (a.run (badObs seqs)).on_ = true := by
  induction seqs with
  | nil => intro a h; exact h
  | cons s rest ih =>
    intro a h
    show ((a.setCondition true s).run (badObs rest)).on_ = true
    exact ih _ (by rw [setCondition_true_on, h, Bool.true_or])

/-- A run of good observations never turns an alarm on. -/
theorem run_good_preserves_off (seqs : List Nat) : ∀ a : Alarm,
    a.on_ = false → (a.run (goodObs seqs)).on_ = false := by
  induction seqs with
  | nil => intro a h; exact h
  | cons s rest ih =>
    intro a h
    show ((a.setCondition false s).run (goodObs rest)).on_ = false
    exact ih _ (by rw [setCondition_false_on, h, Bool.false_and])

/-- Enough strictly increasing fresh bad observations latch the alarm on. -/
theorem run_bad_latch (seqs : List Nat) : ∀ a : Alarm,
    List.Chain (· < ·) a.last_bad_seq seqs →
    a.min_bad_to_trigger ≤ a.consecutive_bad + seqs.length → 1 ≤ seqs.length →
    (a.run (badObs seqs)).on_ = true := by
  induction seqs with
  | nil => intro a _ _ h; simp at h
  | cons s rest ih =>
    intro a hch hN _
    rw [List.chain_cons] at hch
    obtain ⟨hlt, hch⟩ := hch
    show ((a.setCondition true s).run (badObs rest)).on_ = true
    have hcb : (a.setCondition true s).consecutive_bad = a.consecutive_bad + 1 := by
      rw [setCondition_true_cb, if_neg (by omega)]
    by_cases hhit : a.min_bad_to_trigger ≤ a.consecutive_bad + 1
    · apply run_bad_preserves_on
      rw [setCondition_true_on, hcb, decide_eq_true hhit, Bool.or_true]
    · apply ih
      · rw [setCondition_true_lbs]; exact hch
      · rw [setCondition_min_bad, hcb]
        simp only [List.length_cons] at hN
        omega
      · simp only [List.length_cons] at hN
        omega

/-- Enough strictly increasing fresh good observations latch the alarm off. -/
theorem run_good_clear (seqs : List Nat) : ∀ a : Alarm,
    List.Chain (· < ·) a.last_good_seq seqs →
    a.min_good_to_clear ≤ a.consecutive_good + seqs.length → 1 ≤ seqs.length →
    (a.run (goodObs seqs)).on_ = false := by
  induction seqs with
  | nil => intro a _ _ h; simp at h
  | cons s rest ih =>
    intro a hch hM _
    rw [List.chain_cons] at hch
    obtain ⟨hlt, hch⟩ := hch
    show ((a.setCondition false s).run (goodObs rest)).on_ = false
    have hcg : (a.setCondition false s).consecutive_good = a.consecutive_good + 1 := by
      rw [setCondition_false_cg, if_neg (by omega)]
    by_cases hhit : a.min_good_to_clear ≤ a.consecutive_good + 1
    · apply run_good_preserves_off
      rw [setCondition_false_on, hcg, decide_eq_true hhit, Bool.not_true, Bool.and_false]
    · apply ih
      · rw [setCondition_false_lgs]; exact hch
      · rw [setCondition_min_good, hcg]
        simp only [List.length_cons] at hM
        omega
      · simp only [List.length_cons] at hM
        omega

/-- C2: hysteresis contract of Alarm::setCondition for an alarm constructed with
min_bad_to_trigger = N and min_good_to_clear = M.  (i) Any run containing fewer
than N bad observations (in particular any shorter all-bad run, and any run in
which good observations are interleaved so fewer than N bads occur) leaves the
alarm not latched ON, so the latch can occur no earlier than the Nth bad
observation.  (ii) N bad observations at distinct, strictly increasing sequence
numbers (fresh with respect to the constructed state) latch the alarm ON.
(iii) A run of N bad observations with a good observation interleaved leaves
the alarm not latched ON.  (iv) and (v): the symmetric properties for
min_good_to_clear = M good observations latching the alarm OFF from an ON
state. -/
theorem C2_setCondition_hysteresis (N M : Nat) (txt : String) (lvl : AlarmLevel) :
    (∀ obs : List (Bool × Nat), badCount obs < N →
      ((mkAlarm txt N M lvl).run obs).on_ = false)
    ∧ (∀ seqs : List Nat, seqs.length = N → 1 ≤ N →
      List.Chain (· < ·) (mkAlarm txt N M lvl).last_bad_seq seqs →
      ((mkAlarm txt N M lvl).run (badObs seqs)).on_ = true)
    ∧ (∀ (s1 s2 : List Nat) (g : Nat), s1.length + s2.length = N →
      1 ≤ s1.length → 1 ≤ s2.length →
      ((mkAlarm txt N M lvl).run (badObs s1 ++ (false, g) :: badObs s2)).on_ = false)
    ∧ (∀ a : Alarm, a.min_good_to_clear = M → a.on_ = true →
      ∀ obs : List (Bool × Nat), a.consecutive_good + goodCount obs < M →
      (a.run obs).on_ = true)
    ∧ (∀ a : Alarm, a.min_good_to_clear = M → a.on_ = true →
      ∀ seqs : List Nat, M ≤ a.consecutive_good + seqs.length → 1 ≤ seqs.length →
      List.Chain (· < ·) a.last_good_seq seqs →
      (a.run (goodObs seqs)).on_ = false) := by
  refine ⟨fun obs h => run_off_of_bad_lt obs _ rfl (by simpa [mkAlarm] using h),
          fun seqs hlen hN hch =>
            run_bad_latch seqs _ hch (by simp [mkAlarm]; omega) (by omega),
          fun s1 s2 g hsum h1 h2 => ?_,
          fun a hM hon obs h => run_on_of_good_lt obs a hon (by omega),
          fun a hM hon seqs hle hlen hch => run_good_clear seqs a hch (by omega) hlen⟩
  rw [run_append]
  have hA1 : ((mkAlarm txt N M lvl).run (badObs s1)).on_ = false := by
    apply run_off_of_bad_lt _ _ rfl
    rw [badCount_badObs]
    simp [mkAlarm]
    omega
  show ((((mkAlarm txt N M lvl).run (badObs s1)).setCondition false g).run (badObs s2)).on_
      = false
  apply run_off_of_bad_lt
  · rw [setCondition_false_on, hA1, Bool.false_and]
  · rw [setCondition_min_bad, run_min_bad, setCondition_false_cb, badCount_badObs]
    simp [mkAlarm]
    omega

/-- Witness for C2: concrete instantiations of all five conjuncts, with N = 2
for the trigger side and the HIGH-PRESSURE-style parameters (trigger 1,
clear 2) for the clear side. -/
theorem C2_setCondition_hysteresis_witness :
    ((mkAlarm "" 2 2 AlarmLevel.EMERGENCY).run [(true, 1)]).on_ = false
    ∧ ((mkAlarm "" 2 2 AlarmLevel.EMERGENCY).run (badObs [1, 2])).on_ = true
    ∧ ((mkAlarm "" 2 2 AlarmLevel.EMERGENCY).run
        (badObs [1] ++ (false, 3) :: badObs [4])).on_ = false
    ∧ (((mkAlarm "" 1 2 AlarmLevel.EMERGENCY).setCondition true 1).run
        [(false, 2)]).on_ = true
    ∧ (((mkAlarm "" 1 2 AlarmLevel.EMERGENCY).setCondition true 1).run
        (goodObs [2, 3])).on_ = false := by
  refine ⟨(C2_setCondition_hysteresis 2 2 "" AlarmLevel.EMERGENCY).1 [(true, 1)] (by decide),
          (C2_setCondition_hysteresis 2 2 "" AlarmLevel.EMERGENCY).2.1 [1, 2]
            (by decide) (by decide)
            (List.Chain.cons (by decide) (List.Chain.cons (by decide) List.Chain.nil)),
          (C2_setCondition_hysteresis 2 2 "" AlarmLevel.EMERGENCY).2.2.1 [1] [4] 3
            (by decide) (by decide) (by decide),
          (C2_setCondition_hysteresis 2 2 "" AlarmLevel.EMERGENCY).2.2.2.1 _
            (by decide) (by decide) [(false, 2)] (by decide),
          (C2_setCondition_hysteresis 2 2 "" AlarmLevel.EMERGENCY).2.2.2.2 _
            (by decide) (by decide) [2, 3] (by decide) (by decide)
            (List.Chain.cons (by decide) (List.Chain.cons (by decide) List.Chain.nil))⟩

/-- C3: calling setCondition a second time with the same outcome and the same
sequence number as the immediately preceding call leaves the whole alarm state
(latch, hysteresis counters, bookkeeping, text, level, thresholds) exactly as
after the first call: the repeat counts as one observation, not two. -/
theorem C3_setCondition_same_seq_once (a : Alarm) (bad : Bool) (s : Nat) :
    (a.setCondition bad s).setCondition bad s = a.setCondition bad s := by
  cases bad <;>
    simp [Alarm.setCondition, Bool.and_assoc, Bool.and_self, Bool.or_assoc, Bool.or_self]

/-- C4: the HIGH_PRESSURE alarm as constructed at Alarms.h line 246
(min_bad_to_trigger = 1, min_good_to_clear = 2, level EMERGENCY), starting from
the freshly constructed state: setCondition(true, 1) turns it ON,
setCondition(false, 2) leaves it ON (one good observation is fewer than the two
required), and setCondition(false, 3) turns it OFF. -/
theorem C4_highPressure_scenario :
    ((mkAlarm "HIGH PRESSURE       " 1 2 AlarmLevel.EMERGENCY).setCondition true 1).on_ = true
    ∧ (((mkAlarm "HIGH PRESSURE       " 1 2 AlarmLevel.EMERGENCY).setCondition true 1).setCondition
        false 2).on_ = true
    ∧ ((((mkAlarm "HIGH PRESSURE       " 1 2 AlarmLevel.EMERGENCY).setCondition true 1).setCondition
        false 2).setCondition false 3).on_ = false := by
  decide

theorem updateSlot_same (al : Fin 12 → Alarm) (idx : Fin 12) (a : Alarm) :
    updateSlot al idx a idx = a := by
  simp [updateSlot]

theorem updateSlot_other (al : Fin 12 → Alarm) (idx : Fin 12) (a : Alarm)
    (j : Fin 12) (h : j ≠ idx) : updateSlot al idx a j = al j := by
  simp [updateSlot, h]

theorem maxLevel_left_le (a b : AlarmLevel) : a.toNat ≤ (a.maxLevel b).toNat := by
  cases a <;> cases b <;> decide

theorem maxLevel_right_le (a b : AlarmLevel) : b.toNat ≤ (a.maxLevel b).toNat := by
  cases a <;> cases b <;> decide

theorem maxLevel_eq_or (a b : AlarmLevel) : a.maxLevel b = a ∨ a.maxLevel b = b := by
  cases a <;> cases b <;> decide

theorem highestLevelAux_acc_le (al : Fin 12 → Alarm) :
    ∀ (l : List (Fin 12)) (acc : AlarmLevel),
      acc.toNat ≤ (highestLevelAux al l acc).toNat := by
  intro l
  induction l with
  | nil => intro acc; exact Nat.le_refl _
  | cons j rest ih =>
    intro acc
    show acc.toNat ≤ (highestLevelAux al rest
      (if (al j).on_ = true then acc.maxLevel (al j).alarm_level else acc)).toNat
    by_cases hj : (al j).on_ = true
    · rw [if_pos hj]
      exact Nat.le_trans (maxLevel_left_le _ _) (ih _)
    · rw [if_neg hj]
      exact ih acc

theorem highestLevelAux_mem_le (al : Fin 12 → Alarm) :
    ∀ (l : List (Fin 12)) (acc : AlarmLevel) (i : Fin 12), i ∈ l → (al i).on_ = true →
      ((al i).alarm_level).toNat ≤ (highestLevelAux al l acc).toNat := by
  intro l
  induction l with
  | nil => intro acc i hi; exact absurd hi (List.not_mem_nil i)
  | cons j rest ih =>
    intro acc i hi hon
    show ((al i).alarm_level).toNat ≤ (highestLevelAux al rest
      (if (al j).on_ = true then acc.maxLevel (al j).alarm_level else acc)).toNat
    rcases List.mem_cons.mp hi with heq | hmem
    · subst heq
      rw [if_pos hon]
      exact Nat.le_trans (maxLevel_right_le _ _) (highestLevelAux_acc_le al rest _)
    · exact ih _ i hmem hon

theorem highestLevelAux_attained (al : Fin 12 → Alarm) :
    ∀ (l : List (Fin 12)) (acc : AlarmLevel),
      highestLevelAux al l acc = acc
      ∨ ∃ i ∈ l, (al i).on_ = true ∧ (al i).alarm_level = highestLevelAux al l acc := by
  intro l
  induction l with
  | nil => intro acc; exact Or.inl rfl
  | cons j rest ih =>
    intro acc
    show highestLevelAux al rest
        (if (al j).on_ = true then acc.maxLevel (al j).alarm_level else acc) = acc
      ∨ ∃ i ∈ j :: rest, (al i).on_ = true ∧ (al i).alarm_level = highestLevelAux al rest
        (if (al j).on_ = true then acc.maxLevel (al j).alarm_level else acc)
    by_cases hj : (al j).on_ = true
    · rw [if_pos hj]
      rcases ih (acc.maxLevel (al j).alarm_level) with heq | ⟨i, hmem, hion, hilvl⟩
      · rcases maxLevel_eq_or acc (al j).alarm_level with hm | hm
        · exact Or.inl (heq.trans hm)
        · exact Or.inr ⟨j, List.mem_cons_self j rest, hj, by rw [heq, hm]⟩
      · exact Or.inr ⟨i, List.mem_cons_of_mem j hmem, hion, hilvl⟩
    · rw [if_neg hj]
      rcases ih acc with heq | ⟨i, hmem, hion, hilvl⟩
      · exact Or.inl heq
      · exact Or.inr ⟨i, List.mem_cons_of_mem j hmem, hion, hilvl⟩

theorem highestLevelAux_all_off (al : Fin 12 → Alarm) :
    ∀ (l : List (Fin 12)) (acc : AlarmLevel), (∀ i ∈ l, (al i).on_ = false) →
      highestLevelAux al l acc = acc := by
  intro l
  induction l with
  | nil => intro acc _; rfl
  | cons j rest ih =>
    intro acc hoff
    show highestLevelAux al rest
      (if (al j).on_ = true then acc.maxLevel (al j).alarm_level else acc) = acc
    rw [if_neg (by simp [hoff j (List.mem_cons_self j rest)])]
    exact ih acc (fun i hi => hoff i (List.mem_cons_of_mem j hi))

theorem level_eq_emergency (lvl : AlarmLevel) (h1 : 2 ≤ lvl.toNat)
    (h2 : lvl ≠ AlarmLevel.OFF_LEVEL) : lvl = AlarmLevel.EMERGENCY := by
  cases lvl <;> simp_all [AlarmLevel.toNat]

/-- C5: for every registry state, getHighestLevel returns the maximum
AlarmLevel among the alarms whose latched state is ON, under the order
NO_ALARM < NOTIFY < EMERGENCY < OFF_LEVEL encoded by AlarmLevel.toNat: it is an
upper bound of the levels of all ON alarms, it is NO_ALARM when no alarm is ON,
it is NO_ALARM or attained by some ON alarm, and in particular when some ON
alarm is at EMERGENCY and no ON alarm is at OFF_LEVEL (e.g. alarms at NOTIFY
and EMERGENCY simultaneously ON) it returns EMERGENCY. -/
theorem C5_getHighestLevel_max (m : AlarmManager) :
    (∀ i : Fin 12, (m.alarms i).on_ = true →
      ((m.alarms i).alarm_level).toNat ≤ (m.getHighestLevel).toNat)
    ∧ ((∀ i : Fin 12, (m.alarms i).on_ = false) →
      m.getHighestLevel = AlarmLevel.NO_ALARM)
    ∧ (m.getHighestLevel = AlarmLevel.NO_ALARM
      ∨ ∃ i : Fin 12, (m.alarms i).on_ = true
          ∧ (m.alarms i).alarm_level = m.getHighestLevel)
    ∧ ((∃ i : Fin 12, (m.alarms i).on_ = true
          ∧ (m.alarms i).alarm_level = AlarmLevel.EMERGENCY) →
      (∀ i : Fin 12, (m.alarms i).on_ = true →
          (m.alarms i).alarm_level ≠ AlarmLevel.OFF_LEVEL) →
      m.getHighestLevel = AlarmLevel.EMERGENCY) := by
  have hub : ∀ i : Fin 12, (m.alarms i).on_ = true →
      ((m.alarms i).alarm_level).toNat ≤ (m.getHighestLevel).toNat :=
    fun i hon => highestLevelAux_mem_le m.alarms _ _ i (List.mem_finRange i) hon
  have hatt : m.getHighestLevel = AlarmLevel.NO_ALARM
      ∨ ∃ i : Fin 12, (m.alarms i).on_ = true
          ∧ (m.alarms i).alarm_level = m.getHighestLevel := by
    rcases highestLevelAux_attained m.alarms (List.finRange 12) AlarmLevel.NO_ALARM with
      heq | ⟨i, _, hion, hilvl⟩
    · exact Or.inl heq
    · exact Or.inr ⟨i, hion, hilvl⟩
  refine ⟨hub, fun hoff => highestLevelAux_all_off m.alarms _ _ (fun i _ => hoff i),
    hatt, ?_⟩
  rintro ⟨i, hion, hilvl⟩ hnotoff
  have h2 : 2 ≤ (m.getHighestLevel).toNat := by
    have hle := hub i hion
    rw [hilvl] at hle
    exact hle
  rcases hatt with heq | ⟨k, hkon, hklvl⟩
  · rw [heq] at h2
    exact absurd h2 (by decide)
  · exact level_eq_emergency _ h2 (hklvl ▸ hnotoff k hkon)

/-- Witness for C5: the all-off fresh registry yields NO_ALARM; after turning
HIGH PRESSURE (EMERGENCY) and BAD PLATEAU (NOTIFY) on simultaneously the
highest level is EMERGENCY; and the upper-bound conjunct instantiated at the
NOTIFY alarm of that registry. -/
theorem C5_getHighestLevel_max_witness :
    (mkAlarmManager 0).getHighestLevel = AlarmLevel.NO_ALARM
    ∧ (((mkAlarmManager 1).highPressure true).badPlateau true).getHighestLevel
        = AlarmLevel.EMERGENCY
    ∧ (((((mkAlarmManager 1).highPressure true).badPlateau true).alarms
          BAD_PLATEAU).alarm_level).toNat
        ≤ ((((mkAlarmManager 1).highPressure true).badPlateau true).getHighestLevel).toNat := by
  refine ⟨(C5_getHighestLevel_max (mkAlarmManager 0)).2.1 (by decide),
          (C5_getHighestLevel_max _).2.2.2 ⟨HIGH_PRESSU, by decide, by decide⟩ (by decide),
          (C5_getHighestLevel_max _).1 BAD_PLATEAU (by decide)⟩

/-- C10: each named condition setter of the AlarmManager mutates exactly the
registry slot it is named for, by feeding the boolean into that slot's
setCondition with the shared cycle counter as the sequence number; every other
slot (text, level, latch and counters alike) and the cycle counter itself are
left unchanged. -/
theorem C10_named_setters_frame (m : AlarmManager) (v : Bool) :
    ((m.highPressure v).alarms HIGH_PRESSU
        = (m.alarms HIGH_PRESSU).setCondition v m.cycle_count
      ∧ (∀ j : Fin 12, j ≠ HIGH_PRESSU → (m.highPressure v).alarms j = m.alarms j)
      ∧ (m.highPressure v).cycle_count = m.cycle_count)
    ∧ ((m.lowPressure v).alarms LOW_PRESSUR
        = (m.alarms LOW_PRESSUR).setCondition v m.cycle_count
      ∧ (∀ j : Fin 12, j ≠ LOW_PRESSUR → (m.lowPressure v).alarms j = m.alarms j)
      ∧ (m.lowPressure v).cycle_count = m.cycle_count)
    ∧ ((m.badPlateau v).alarms BAD_PLATEAU
        = (m.alarms BAD_PLATEAU).setCondition v m.cycle_count
      ∧ (∀ j : Fin 12, j ≠ BAD_PLATEAU → (m.badPlateau v).alarms j = m.alarms j)
      ∧ (m.badPlateau v).cycle_count = m.cycle_count)
    ∧ ((m.unmetVolume v).alarms UNMET_VOLUM
        = (m.alarms UNMET_VOLUM).setCondition v m.cycle_count
      ∧ (∀ j : Fin 12, j ≠ UNMET_VOLUM → (m.unmetVolume v).alarms j = m.alarms j)
      ∧ (m.unmetVolume v).cycle_count = m.cycle_count)
    ∧ ((m.noTidalPres v).alarms NO_TIDAL_PR
        = (m.alarms NO_TIDAL_PR).setCondition v m.cycle_count
      ∧ (∀ j : Fin 12, j ≠ NO_TIDAL_PR → (m.noTidalPres v).alarms j = m.alarms j)
      ∧ (m.noTidalPres v).cycle_count = m.cycle_count)
    ∧ ((m.overCurrent v).alarms OVER_CURREN
        = (m.alarms OVER_CURREN).setCondition v m.cycle_count
      ∧ (∀ j : Fin 12, j ≠ OVER_CURREN → (m.overCurrent v).alarms j = m.alarms j)
      ∧ (m.overCurrent v).cycle_count = m.cycle_count)
    ∧ ((m.mechanicalFailure v).alarms MECH_FAILUR
        = (m.alarms MECH_FAILUR).setCondition v m.cycle_count
      ∧ (∀ j : Fin 12, j ≠ MECH_FAILUR → (m.mechanicalFailure v).alarms j = m.alarms j)
      ∧ (m.mechanicalFailure v).cycle_count = m.cycle_count)
    ∧ ((m.turningOFF v).alarms TURNING_OFF
        = (m.alarms TURNING_OFF).setCondition v m.cycle_count
      ∧ (∀ j : Fin 12, j ≠ TURNING_OFF → (m.turningOFF v).alarms j = m.alarms j)
      ∧ (m.turningOFF v).cycle_count = m.cycle_count) := by
  refine ⟨⟨by simp [AlarmManager.highPressure, updateSlot],
           fun j hj => by simp [AlarmManager.highPressure, updateSlot, hj], rfl⟩,
          ⟨by simp [AlarmManager.lowPressure, updateSlot],
           fun j hj => by simp [AlarmManager.lowPressure, updateSlot, hj], rfl⟩,
          ⟨by simp [AlarmManager.badPlateau, updateSlot],
           fun j hj => by simp [AlarmManager.badPlateau, updateSlot, hj], rfl⟩,
          ⟨by simp [AlarmManager.unmetVolume, updateSlot],
           fun j hj => by simp [AlarmManager.unmetVolume, updateSlot, hj], rfl⟩,
          ⟨by simp [AlarmManager.noTidalPres, updateSlot],
           fun j hj => by simp [AlarmManager.noTidalPres, updateSlot, hj], rfl⟩,
          ⟨by simp [AlarmManager.overCurrent, updateSlot],
           fun j hj => by simp [AlarmManager.overCurrent, updateSlot, hj], rfl⟩,
          ⟨by simp [AlarmManager.mechanicalFailure, updateSlot],
           fun j hj => by simp [AlarmManager.mechanicalFailure, updateSlot, hj], rfl⟩,
          ⟨by simp [AlarmManager.turningOFF, updateSlot],
           fun j hj => by simp [AlarmManager.turningOFF, updateSlot, hj], rfl⟩⟩

/-- Witness for C10: on the fresh registry with counter 1, highPressure leaves
the LOW_PRESSUR slot untouched, mutates its own slot exactly through
setCondition with the shared counter, and turningOFF leaves the HIGH_PRESSU
slot untouched. -/
theorem C10_named_setters_frame_witness :
    ((mkAlarmManager 1).highPressure true).alarms LOW_PRESSUR
        = (mkAlarmManager 1).alarms LOW_PRESSUR
    ∧ ((mkAlarmManager 1).highPressure true).alarms HIGH_PRESSU
        = ((mkAlarmManager 1).alarms HIGH_PRESSU).setCondition true
            (mkAlarmManager 1).cycle_count
    ∧ ((mkAlarmManager 1).turningOFF true).alarms HIGH_PRESSU
        = (mkAlarmManager 1).alarms HIGH_PRESSU := by
  refine ⟨(C10_named_setters_frame (mkAlarmManager 1) true).1.2.1 LOW_PRESSUR (by decide),
          (C10_named_setters_frame (mkAlarmManager 1) true).1.1,
          (C10_named_setters_frame (mkAlarmManager 1) true).2.2.2.2.2.2.2.2.1
            HIGH_PRESSU (by decide)⟩

/-- C1 (code bug): in AlarmManager::unconfirmedChange the local index variable
NOT_CONFIRM is declared without an initializer and assigned only when the key
matches one of the four recognized keys VOLUME, BPM, IE_RATIO, AC_TRIGGER; for
any other key (including the default key value 0 used when the argument is
omitted) the subsequent alarms_[NOT_CONFIRM] accesses read an indeterminate
index — undefined behaviour and a potential out-of-bounds write, not the no-op
the specification requires.  In the embedding the resolved index is none
exactly on the uninitialized executions, while the four recognized keys map to
their slots. -/
theorem C1_unconfirmedChange_uninitialized_key :
    resolveNotConfirm DisplayKey.HEADER = none
    ∧ (mkAlarmManager 1).unconfirmedChange true "CONFIRM?" DisplayKey.HEADER = none
    ∧ resolveNotConfirm DisplayKey.VOLUME = some NOT_CONFIRM_TV
    ∧ resolveNotConfirm DisplayKey.BPM = some NOT_CONFIRM_RR
    ∧ resolveNotConfirm DisplayKey.IE_RATIO_KEY = some NOT_CONFIRM_IE
    ∧ resolveNotConfirm DisplayKey.AC_TRIGGER = some NOT_CONFIRM_AC :=
  ⟨rfl, rfl, rfl, rfl, rfl, rfl⟩

theorem Tone.play_stopped (t : Tone) (now : Nat) (hlen : 0 < t.notes.length)
    (hp : t.playing = false) :
    t.play now = ({ t with playing := true, tone_step := 0, tone_timer := now },
      some (t.notes.getD 0 ⟨0, 0, 0⟩).note) := by
  unfold Tone.play
  rw [if_pos hlen, if_neg (by simp [hp])]

theorem Tone.play_playing (t : Tone) (now : Nat) (hlen : 0 < t.notes.length)
    (hp : t.playing = true) :
    t.play now =
      (if (t.notes.getD (t.tone_step % t.notes.length) ⟨0, 0, 0⟩).duration
          + (t.notes.getD (t.tone_step % t.notes.length) ⟨0, 0, 0⟩).pause
          < now - t.tone_timer then
        ({ t with tone_step := (t.tone_step + 1) % t.notes.length, tone_timer := now },
          some (t.notes.getD ((t.tone_step + 1) % t.notes.length) ⟨0, 0, 0⟩).note)
      else (t, none)) := by
  unfold Tone.play
  rw [if_pos hlen, if_pos hp]

/-- C7: the EMERGENCY Tone sequence.  (i) From any stopped state a play call
starts at step 0, emitting its pitch.  (ii) From each of the five steps, a play
call whose elapsed time exceeds that step's duration + pause advances to the
next step — wrapping from step 4 back to step 0 — and emits exactly the next
step's programmed pitch, while a call within the window emits nothing and
leaves the state unchanged; hence repeated calls across increasing time emit
exactly the five programmed (pitch, duration, pause) steps in order, looping
indefinitely.  (iii) After stop, the next play call restarts at step 0, not
mid-sequence.  (iv) A concrete trace over two full loops. -/
theorem C7_emergency_tone_sequence :
    (∀ step timer now : Nat,
      (emergencyAt false step timer).play now = (emergencyAt true 0 now, some NOTE_G4))
    ∧ (∀ timer now : Nat,
      (500 < now - timer →
        (emergencyAt true 0 timer).play now = (emergencyAt true 1 now, some NOTE_G4))
      ∧ (¬ (500 < now - timer) →
        (emergencyAt true 0 timer).play now = (emergencyAt true 0 timer, none))
      ∧ (500 < now - timer →
        (emergencyAt true 1 timer).play now = (emergencyAt true 2 now, some NOTE_G4))
      ∧ (¬ (500 < now - timer) →
        (emergencyAt true 1 timer).play now = (emergencyAt true 1 timer, none))
      ∧ (700 < now - timer →
        (emergencyAt true 2 timer).play now = (emergencyAt true 3 now, some NOTE_G4))
      ∧ (¬ (700 < now - timer) →
        (emergencyAt true 2 timer).play now = (emergencyAt true 2 timer, none))
      ∧ (300 < now - timer →
        (emergencyAt true 3 timer).play now = (emergencyAt true 4 now, some NOTE_G5))
      ∧ (¬ (300 < now - timer) →
        (emergencyAt true 3 timer).play now = (emergencyAt true 3 timer, none))
      ∧ (1700 < now - timer →
        (emergencyAt true 4 timer).play now = (emergencyAt true 0 now, some NOTE_G4))
      ∧ (¬ (1700 < now - timer) →
        (emergencyAt true 4 timer).play now = (emergencyAt true 4 timer, none)))
    ∧ (∀ (p : Bool) (step timer now : Nat),
      ((emergencyAt p step timer).stop).play now = (emergencyAt true 0 now, some NOTE_G4))
    ∧ (emergencyTone.playTrace
        [0, 2000, 4000, 6000, 8000, 10000, 12000, 14000, 16000, 18000, 20000]).2
      = [NOTE_G4, NOTE_G4, NOTE_G4, NOTE_G4, NOTE_G5,
         NOTE_G4, NOTE_G4, NOTE_G4, NOTE_G4, NOTE_G5, NOTE_G4] := by
  refine ⟨?_, ?_, ?_, by decide⟩
  · intro step timer now
    rw [Tone.play_stopped _ _ (by exact Nat.succ_pos 4) rfl]
    rfl
  · intro timer now
    refine ⟨fun h => ?_, fun h => ?_, fun h => ?_, fun h => ?_, fun h => ?_,
            fun h => ?_, fun h => ?_, fun h => ?_, fun h => ?_, fun h => ?_⟩ <;>
      rw [Tone.play_playing _ _ (by exact Nat.succ_pos 4) rfl] <;>
      simp [emergencyAt, kEmergencyNotes, NOTE_G4, NOTE_G5, h]
  · intro p step timer now
    rw [Tone.play_stopped _ _ (by exact Nat.succ_pos 4) rfl]
    rfl

/-- Witness for C7: concrete advance, idle-within-window and restart-after-stop
instances of the hypothesis-bearing conjuncts. -/
theorem C7_emergency_tone_sequence_witness :
    (emergencyAt true 0 0).play 2000 = (emergencyAt true 1 2000, some NOTE_G4)
    ∧ (emergencyAt true 4 0).play 1000 = (emergencyAt true 4 0, none) :=
  ⟨((C7_emergency_tone_sequence.2.1 0 2000).1 (by decide)),
   ((C7_emergency_tone_sequence.2.1 0 1000).2.2.2.2.2.2.2.2.2 (by decide))⟩

/-- C8: a Tone whose note sequence has length 0 — the default-constructed Tone
included — never plays: every play call emits no pitch and leaves the state
unchanged (the guard returns before any division by or indexing modulo the
zero length), for any elapsed time and any run of calls. -/
theorem C8_empty_tone_never_plays (t : Tone) (h : t.notes = []) :
    (∀ now : Nat, t.play now = (t, none))
    ∧ (∀ ticks : List Nat, (t.playTrace ticks).1 = t ∧ (t.playTrace ticks).2 = []) := by
  have hp : ∀ now : Nat, t.play now = (t, none) := by
    intro now
    have hn : ¬ 0 < t.notes.length := by rw [h]; decide
    unfold Tone.play
    rw [if_neg hn]
  refine ⟨hp, ?_⟩
  intro ticks
  induction ticks with
  | nil => exact ⟨rfl, rfl⟩
  | cons now rest ih =>
    refine ⟨?_, ?_⟩
    · show ((t.play now).1.playTrace rest).1 = t
      rw [hp now]
      exact ih.1
    · show (t.play now).2.toList ++ ((t.play now).1.playTrace rest).2 = []
      rw [hp now]
      exact ih.2

/-- Witness for C8: the default-constructed Tone emits nothing at an arbitrary
clock reading and over an arbitrary run of calls. -/
theorem C8_empty_tone_never_plays_witness :
    defaultTone.play 12345 = (defaultTone, none)
    ∧ (defaultTone.playTrace [0, 100, 5000]).2 = [] :=
  ⟨(C8_empty_tone_never_plays defaultTone rfl).1 12345,
   ((C8_empty_tone_never_plays defaultTone rfl).2 [0, 100, 5000]).2⟩

/-- C6: with snooze just triggered at time t (snoozed, deadline t + kSnoozeTime),
Beeper::update produces no sound for any alarm level at every update from t up
to (but excluding) t + kSnoozeTime, and snooze stays active; at the first
update once exactly kSnoozeTime has elapsed, snooze auto-clears and sound
resumes for any still-active (non-NO_ALARM) level without a further button
press, while a NO_ALARM level stays silent; and driving the Beeper never
changes the alarm registry, so no Alarm's latched state is affected by
snoozing. -/
theorem C6_snooze_window (b : Beeper) (t : Nat) (hs : b.snoozed = true)
    (hd : b.snooze_time = t + kSnoozeTime) :
    (∀ (now : Nat) (lvl : AlarmLevel), t ≤ now → now < t + kSnoozeTime →
      (b.update false now lvl).2 = false ∧ ((b.update false now lvl).1).snoozed = true)
    ∧ (∀ (now : Nat) (lvl : AlarmLevel), t + kSnoozeTime ≤ now →
      lvl ≠ AlarmLevel.NO_ALARM →
      (b.update false now lvl).2 = true ∧ ((b.update false now lvl).1).snoozed = false)
    ∧ (∀ (now : Nat), t + kSnoozeTime ≤ now →
      (b.update false now AlarmLevel.NO_ALARM).2 = false)
    ∧ (∀ (m : AlarmManager) (pressed : Bool) (now : Nat),
      (driveBeeper m b pressed now).1 = m) := by
  refine ⟨?_, ?_, ?_, fun m pressed now => rfl⟩
  · intro now lvl h1 h2
    have hnle : ¬ (t + kSnoozeTime ≤ now) := by omega
    constructor <;> simp [Beeper.update, hs, hd, hnle]
  · intro now lvl h1 hlvl
    constructor <;> simp [Beeper.update, hs, hd, h1, hlvl]
  · intro now h1
    simp [Beeper.update, hs, hd, h1]

/-- Witness for C6: for snooze triggered at t = 0 (deadline 120000), the update
at 5 ms is silent even at EMERGENCY, the update at exactly 120000 ms sounds for
EMERGENCY with no button press, and driving the beeper leaves the registry
untouched. -/
theorem C6_snooze_window_witness :
    (({ snoozed := true, snooze_time := 120000 } : Beeper).update false 5
        AlarmLevel.EMERGENCY).2 = false
    ∧ (({ snoozed := true, snooze_time := 120000 } : Beeper).update false 120000
        AlarmLevel.EMERGENCY).2 = true
    ∧ (driveBeeper (mkAlarmManager 0) { snoozed := true, snooze_time := 120000 }
        true 7).1 = mkAlarmManager 0 :=
  ⟨((C6_snooze_window { snoozed := true, snooze_time := 120000 } 0 rfl (by decide)).1
      5 AlarmLevel.EMERGENCY (by decide) (by decide)).1,
   ((C6_snooze_window { snoozed := true, snooze_time := 120000 } 0 rfl (by decide)).2.1
      120000 AlarmLevel.EMERGENCY (by decide) (by decide)).1,
   (C6_snooze_window { snoozed := true, snooze_time := 120000 } 0 rfl (by decide)).2.2.2
      (mkAlarmManager 0) true 7⟩

theorem setCell_same (s : Screen) (row col : Nat) (c : Char) :
    setCell s row col c (row, col) = c := by
  simp [setCell]

theorem setCell_other (s : Screen) (row col : Nat) (c : Char) (p : Nat × Nat)
    (h : p ≠ (row, col)) : setCell s row col c p = s p := by
  simp [setCell, h]

theorem clearField_get (row col : Nat) : ∀ (width : Nat) (s : Screen) (i : Nat),
    i < width → clearField s row col width (row, col + i) = ' ' := by
  intro width
  induction width with
  | zero => intro s i h; omega
  | succ w ih =>
    intro s i h
    have hstep : clearField s row col (w + 1)
        = setCell (clearField s row col w) row (col + w) ' ' := by
      unfold clearField
      rw [List.range_succ, List.foldl_append]
      rfl
    rw [hstep]
    by_cases hiw : i = w
    · subst hiw
      exact setCell_same _ _ _ _
    · have hne : ((row, col + i) : Nat × Nat) ≠ (row, col + w) := by
        intro hc
        have h2 := congrArg Prod.snd hc
        simp at h2
        omega
      rw [setCell_other _ _ _ _ _ hne]
      exact ih s i (by omega)

theorem printAt_before (cs : List Char) : ∀ (s : Screen) (row col r c : Nat),
    c < col → printAt s row col cs (r, c) = s (r, c) := by
  induction cs with
  | nil => intro s row col r c _; rfl
  | cons ch rest ih =>
    intro s row col r c hc
    show printAt (setCell s row col ch) row (col + 1) rest (r, c) = s (r, c)
    rw [ih _ _ _ _ _ (by omega)]
    refine setCell_other _ _ _ _ _ ?_
    intro h
    have h2 := congrArg Prod.snd h
    simp at h2
    omega

theorem printAt_after (cs : List Char) : ∀ (s : Screen) (row col r c : Nat),
    col + cs.length ≤ c → printAt s row col cs (r, c) = s (r, c) := by
  induction cs with
  | nil => intro s row col r c _; rfl
  | cons ch rest ih =>
    intro s row col r c hc
    simp only [List.length_cons] at hc
    show printAt (setCell s row col ch) row (col + 1) rest (r, c) = s (r, c)
    rw [ih _ _ _ _ _ (by omega)]
    refine setCell_other _ _ _ _ _ ?_
    intro h
    have h2 := congrArg Prod.snd h
    simp at h2
    omega

theorem printAt_get (cs : List Char) : ∀ (s : Screen) (row col i : Nat),
    i < cs.length → printAt s row col cs (row, col + i) = cs.getD i ' ' := by
  induction cs with
  | nil => intro s row col i h; simp at h
  | cons ch rest ih =>
    intro s row col i h
    show printAt (setCell s row col ch) row (col + 1) rest (row, col + i)
      = (ch :: rest).getD i ' '
    cases i with
    | zero =>
      rw [printAt_before rest _ _ _ _ _ (by omega)]
      have h0 : ((row, col + 0) : Nat × Nat) = (row, col) := by simp
      rw [h0, setCell_same]
      rfl
    | succ j =>
      simp only [List.length_cons] at h
      have harr : ((row, col + (j + 1)) : Nat × Nat) = (row, (col + 1) + j) := by
        have : col + (j + 1) = (col + 1) + j := by omega
        rw [this]
      rw [harr, ih _ _ _ j (by omega)]
      rfl

/-- C9: Display::write first blanks all width cells of the field and only then
prints the value from the field's first cell, so within the field every cell
shows the corresponding character of the new value, or a blank once the value
is exhausted — independent of the previous screen contents, so no character of
a longer previous string can remain visible; cells covered by the printed
value beyond the field width likewise show the new value's characters. -/
theorem C9_display_write_clears (s : Screen) (row col : Nat) (printable : List Char)
    (width i : Nat) (h : i < width ∨ i < printable.length) :
    Display.write s row col printable width (row, col + i) = printable.getD i ' ' := by
  unfold Display.write
  by_cases hip : i < printable.length
  · exact printAt_get printable _ row col i hip
  · rcases h with hw | hl
    · rw [printAt_after printable _ row col row (col + i) (by omega)]
      rw [clearField_get row col width s i hw]
      rw [List.getD_eq_default _ _ (by omega)]
    · omega

/-- Witness for C9: writing the two-character value "HI" into a width-5 field
of a screen previously filled with Z everywhere leaves the fifth field cell
blank (the stale Z is gone) and the second field cell showing the new value's
second character. -/
theorem C9_display_write_clears_witness :
    Display.write (fun _ => 'Z') 1 2 ['H', 'I'] 5 (1, 2 + 4) = ' '
    ∧ Display.write (fun _ => 'Z') 1 2 ['H', 'I'] 5 (1, 2 + 1) = 'I' :=
  ⟨C9_display_write_clears (fun _ => 'Z') 1 2 ['H', 'I'] 5 4 (Or.inl (by decide)),
   C9_display_write_clears (fun _ => 'Z') 1 2 ['H', 'I'] 5 1 (Or.inl (by decide))⟩
